import Mathlib

/-!
Verification development for the OLED media-display program (`main.py`).

The embedding models, faithfully to the Python source:

* the Metadata Store (`ShairportMQTTClient`): the fields guarded by the
  lock, the `_on_message` event dispatch, and the derived reads
  `is_active` / `get_display_title`;
* the Scrolling Text View (`TitleDisplay`): `set_title` and `update`,
  with the pixel-width measurement abstracted as a function
  `String → ℕ` (it is computed by the external font library);
* the Starfield Engine (`Starfield`): `init_stars`, `set_viewport` and
  `update_and_draw`, with Python floats modelled as rationals,
  `int(...)` as truncation toward zero, and `randrange` results passed
  in as oracle parameters;
* one iteration of the render loop in `main` as far as it touches the
  title display (`loopTick`).

Time stamps (`time.time()`) are passed in explicitly as rationals.
-/

/-! ### Configuration constants (from the config block of `main.py`) -/

def WIDTH : ℕ := 128
def HEIGHT : ℕ := 64
def FPS : ℕ := 30
def SCROLL_SPEED : ℚ := 2
def SCROLL_DELAY : ℚ := 2
def STAR_NUM : ℕ := 512
def STAR_MAX_DEPTH : ℕ := 32
def STAR_Z_STEP : ℚ := 1/5
def STAR_VIEW_Y_OFFSET : ℕ := 15

/-! ### Metadata Store (`ShairportMQTTClient`) -/

/-- The mutable fields of `ShairportMQTTClient` guarded by `self._lock`
(`_title`, `_artist`, `_is_active`). -/
structure MQTTState where
  title : Option String
  artist : Option String
  is_active : Bool
  deriving DecidableEq

/-- Initial store state from `ShairportMQTTClient.__init__`:
`_title = None`, `_artist = None`, `_is_active = False`. -/
def MQTTState.init : MQTTState :=
  { title := none, artist := none, is_active := false }

/-- The six subscribed topic suffixes (`_on_connect` subscribes to
`title`, `artist`, `active_start`, `active_end`, `play_start`,
`play_end` under the topic base). -/
inductive Topic where
  | title
  | artist
  | active_start
  | active_end
  | play_start
  | play_end
  deriving DecidableEq

/-- Python `str.strip()` with no argument: remove leading and trailing
whitespace. -/
def stripPayload (s : String) : String :=
  ⟨((s.data.dropWhile Char.isWhitespace).reverse.dropWhile
      Char.isWhitespace).reverse⟩

/-- `_on_message`: the raw payload is decoded and stripped
(`msg.payload.decode(...).strip()`, modelled by `stripPayload`), then
dispatched on the topic.  A title/artist payload is stored only when it
is truthy (non-empty) and differs from the sentinel `"--"`; otherwise
the field is set to `None`.  `active_end` clears the session flag and
both metadata fields; `play_end` clears both metadata fields only;
`play_start` has no handler branch. -/
def on_message (st : MQTTState) (topic : Topic) (raw : String) : MQTTState :=
  let payload := stripPayload raw
  let meta : Option String :=
    if payload ≠ "" ∧ payload ≠ "--" then some payload else none
  match topic with
  | Topic.title => { st with title := meta }
  | Topic.artist => { st with artist := meta }
  | Topic.active_start => { st with is_active := true }
  | Topic.active_end => { st with is_active := false, title := none, artist := none }
  | Topic.play_start => st
  | Topic.play_end => { st with title := none, artist := none }

/-- `is_active`: snapshot read of the session flag. -/
def MQTTState.isActive (st : MQTTState) : Bool := st.is_active

/-- `get_display_title`: returns `None` when `_title` is falsy (absent
or the empty string — Python truthiness), otherwise prepends the artist
as `"artist - title"` when `_artist` is truthy, else the bare title. -/
def get_display_title (st : MQTTState) : Option String :=
  match st.title with
  | none => none
  | some t =>
    if t = "" then none
    else
      match st.artist with
      | none => some t
      | some a => if a = "" then some t else some (a ++ " - " ++ t)

/-- A sequence of bus events applied to a store state, in arrival
order. -/
def applyEvents (st : MQTTState) (evs : List (Topic × String)) : MQTTState :=
  evs.foldl (fun s ev => on_message s ev.1 ev.2) st

/-- A store state is reachable when some event sequence produces it
from the initial state. -/
def Reachable (st : MQTTState) : Prop :=
  ∃ evs : List (Topic × String), st = applyEvents MQTTState.init evs

/-- Stored metadata fields are never the empty string: they are either
absent or a non-empty payload. -/
def MetaWF (st : MQTTState) : Prop :=
  st.title ≠ some "" ∧ st.artist ≠ some ""

/-! ### Scrolling Text View (`TitleDisplay`) -/

/-- The state of `TitleDisplay`.  The font handle is abstracted away;
the pixel-width measurement `get_text_width(font, ·)` is passed to the
operations as a function `fw : String → ℕ`.  `scroll_offset` and
`scroll_wait_start` are Python floats, modelled as rationals. -/
structure TitleDisplay where
  width : ℕ
  text : Option String
  display_text : String
  is_scrolling : Bool
  scroll_offset : ℚ
  text_width : ℕ
  scroll_wait_start : ℚ
  waiting_to_scroll : Bool
  deriving DecidableEq

/-- `TitleDisplay.__init__`: empty display text, centered mode, zero
offset and timers. -/
def TitleDisplay.init (width : ℕ) : TitleDisplay :=
  { width := width, text := none, display_text := "", is_scrolling := false,
    scroll_offset := 0, text_width := 0, scroll_wait_start := 0,
    waiting_to_scroll := false }

/-- `TitleDisplay.set_title`: no-op when `title` equals the stored
`self.text`; otherwise store the new text, reset the scroll state
(offset 0, waiting, wait timer at `now`), then choose the presentation:
the dash-flanked string if it fits the width, else the plain text if it
fits, else the text padded with a three-space gap in scrolling mode,
its width measured on the padded string. -/
def TitleDisplay.set_title (fw : String → ℕ) (now : ℚ)
    (st : TitleDisplay) (title : String) : TitleDisplay :=
  if st.text = some title then st
  else
    let base_w := fw title
    let dashed := "- " ++ title ++ " -"
    let dashed_w := fw dashed
    let st1 : TitleDisplay :=
      { st with text := some title, scroll_offset := 0,
                waiting_to_scroll := true, scroll_wait_start := now }
    if dashed_w ≤ st.width then
      { st1 with display_text := dashed, text_width := dashed_w, is_scrolling := false }
    else if base_w ≤ st.width then
      { st1 with display_text := title, text_width := base_w, is_scrolling := false }
    else
      let padded := title ++ "   "
      { st1 with display_text := padded, text_width := fw padded, is_scrolling := true }

/-- `TitleDisplay.update`: a no-op unless scrolling.  While waiting, the
wait flag is dropped once `SCROLL_DELAY` has elapsed and nothing else
changes that tick.  Otherwise the offset advances by `SCROLL_SPEED`,
wrapping back to 0 (and re-entering the waiting phase with a fresh
timer) once it reaches the rendered text width. -/
def TitleDisplay.update (now : ℚ) (st : TitleDisplay) : TitleDisplay :=
  if st.is_scrolling = false then st
  else if st.waiting_to_scroll then
    if now - st.scroll_wait_start ≥ SCROLL_DELAY then
      { st with waiting_to_scroll := false }
    else st
  else
    let off := st.scroll_offset + SCROLL_SPEED
    if off ≥ (st.text_width : ℚ) then
      { st with scroll_offset := 0, waiting_to_scroll := true, scroll_wait_start := now }
    else
      { st with scroll_offset := off }

/-! ### Render loop (`main`), restricted to its effect on the title
display -/

/-- One iteration of the `while True` loop in `main`, as far as it
touches `title_display`: read `get_display_title()`; when the result is
truthy, push it with `set_title` and advance with `update`; otherwise
leave the title display untouched (only the starfield viewport
changes). -/
def loopTick (fw : String → ℕ) (now : ℚ) (m : MQTTState)
    (td : TitleDisplay) : TitleDisplay :=
  match get_display_title m with
  | none => td
  | some t =>
      if t = "" then td
      else TitleDisplay.update now (TitleDisplay.set_title fw now td t)

/-! ### Starfield Engine (`Starfield`) -/

/-- One star: the three floats `[x, y, z]` of a `self.stars` entry,
modelled as rationals. -/
structure StarPt where
  x : ℚ
  y : ℚ
  z : ℚ
  deriving DecidableEq

/-- Python `int(...)` applied to a float: truncation toward zero. -/
def truncQ (q : ℚ) : ℤ :=
  if 0 ≤ q then ⌊q⌋ else ⌈q⌉

/-- The `Starfield` object state. -/
structure Starfield where
  width : ℕ
  height : ℕ
  num_stars : ℕ
  max_depth : ℕ
  stars : List StarPt
  vp_x : ℤ
  vp_y : ℤ
  vp_w : ℤ
  vp_h : ℤ
  origin_x : ℤ
  origin_y : ℤ
  deriving DecidableEq

/-- `init_stars`: each star gets `x, y = randrange(-25, 25)` and
`z = randrange(1, max_depth)`; the random draws are supplied by the
oracle `rnd`, one triple per star index. -/
def init_stars (rnd : ℕ → ℚ × ℚ × ℚ) (n : ℕ) : List StarPt :=
  (List.range n).map fun i => { x := (rnd i).1, y := (rnd i).2.1, z := (rnd i).2.2 }

/-- `Starfield.__init__`: store the geometry, seed the stars, and
default the viewport to the full screen with a centered origin. -/
def Starfield.mk_init (width height num_stars max_depth : ℕ)
    (rnd : ℕ → ℚ × ℚ × ℚ) : Starfield :=
  { width := width, height := height, num_stars := num_stars,
    max_depth := max_depth, stars := init_stars rnd num_stars,
    vp_x := 0, vp_y := 0, vp_w := width, vp_h := height,
    origin_x := width / 2, origin_y := height / 2 }

/-- `set_viewport`: update the clip rectangle and center the projection
origin inside it (`x + w // 2`, `y + h // 2`); star state untouched. -/
def Starfield.set_viewport (sf : Starfield) (x y w h : ℤ) : Starfield :=
  { sf with vp_x := x, vp_y := y, vp_w := w, vp_h := h,
            origin_x := x + w / 2, origin_y := y + h / 2 }

/-- The advance half of the loop body in `update_and_draw`: decrement
depth by `STAR_Z_STEP`; when it falls to `≤ 0`, respawn at the oracle
coordinates `(rx, ry)` with depth `max_depth`. -/
def advanceStar (max_depth : ℕ) (rx ry : ℚ) (s : StarPt) : StarPt :=
  let z := s.z - STAR_Z_STEP
  if z ≤ 0 then { x := rx, y := ry, z := (max_depth : ℚ) }
  else { x := s.x, y := s.y, z := z }

/-- The perspective projection of a star: `k = 128.0 / z`,
`x = int(s.x * k + origin_x)`, `y = int(s.y * k + origin_y)`. -/
def project (sf : Starfield) (s : StarPt) : ℤ × ℤ :=
  let k : ℚ := 128 / s.z
  (truncQ (s.x * k + (sf.origin_x : ℚ)), truncQ (s.y * k + (sf.origin_y : ℚ)))

/-- The draw half of the loop body in `update_and_draw`: the list of
pixels passed to `draw.point` for one (already advanced) star.  Inside
the viewport the star pixel is drawn, plus one adjacent pixel at
`(x+1, y)` when `(1 - z / max_depth) * 4 ≥ 2`; outside the viewport
nothing is drawn. -/
def drawStar (sf : Starfield) (s : StarPt) : List (ℤ × ℤ) :=
  let p := project sf s
  if sf.vp_x ≤ p.1 ∧ p.1 < sf.vp_x + sf.vp_w ∧
     sf.vp_y ≤ p.2 ∧ p.2 < sf.vp_y + sf.vp_h then
    (p.1, p.2) ::
      (if (1 - s.z / (sf.max_depth : ℚ)) * 4 ≥ 2 then [(p.1 + 1, p.2)] else [])
  else []

/-- The full per-star loop body of `update_and_draw`: advance (with the
oracle respawn coordinates), then project, clip and draw the advanced
star. -/
def starStep (sf : Starfield) (rx ry : ℚ) (s : StarPt) : StarPt × List (ℤ × ℤ) :=
  let s1 := advanceStar sf.max_depth rx ry s
  (s1, drawStar sf s1)

/-- Advance every star of a list, star `i` consuming the oracle value
`rnd i` when it respawns. -/
def advanceStars (max_depth : ℕ) (rnd : ℕ → ℚ × ℚ) (i : ℕ) :
    List StarPt → List StarPt
  | [] => []
  | s :: rest =>
      advanceStar max_depth (rnd i).1 (rnd i).2 s ::
        advanceStars max_depth rnd (i + 1) rest

/-- `update_and_draw`: one simulation tick over all stars, returning
the updated starfield and every pixel handed to `draw.point` during the
tick, in drawing order. -/
def update_and_draw (sf : Starfield) (rnd : ℕ → ℚ × ℚ) :
    Starfield × List (ℤ × ℤ) :=
  let stars1 := advanceStars sf.max_depth rnd 0 sf.stars
  ({ sf with stars := stars1 }, (stars1.map (drawStar sf)).flatten)

/-- `k` render-loop ticks of the starfield, tick `t` drawing with the
random oracle `rnd t`. -/
def runTicks (rnd : ℕ → ℕ → ℚ × ℚ) : ℕ → Starfield → Starfield
  | 0, sf => sf
  | k + 1, sf => (update_and_draw (runTicks rnd k sf) (rnd k)).1

/-! ### Concrete instances used by the counterexamples and example
evaluations -/

/-- A simple concrete font-metrics instance: every character 8 pixels
wide (the real width function lives in the external font library). -/
def fwMono8 : String → ℕ := fun s => 8 * s.length

/-- A 20-character title whose padded pixel width under `fwMono8`
(184px) exceeds the 128px display, so it scrolls. -/
def longTitle : String := "ABCDEFGHIJKLMNOPQRST"

/-- Store after the title event delivers `longTitle`. -/
def mqttWithTitle : MQTTState := on_message MQTTState.init Topic.title longTitle

/-- Store after a subsequent session-end event (`active_end`). -/
def mqttCleared : MQTTState := on_message mqttWithTitle Topic.active_end ""

/-- Store after the identical title is re-delivered. -/
def mqttRetitled : MQTTState := on_message mqttCleared Topic.title longTitle

/-- The title-display state produced by the render loop across the
round trip: three ticks while `longTitle` is displayed (at times 0, 3
and 4 — the display dwells, starts scrolling, advances to offset 2),
one tick after the session-end clear (time 5), and one tick after the
identical title is re-delivered (time 6). -/
def roundTripTd : TitleDisplay :=
  loopTick fwMono8 6 mqttRetitled
    (loopTick fwMono8 5 mqttCleared
      (loopTick fwMono8 4 mqttWithTitle
        (loopTick fwMono8 3 mqttWithTitle
          (loopTick fwMono8 0 mqttWithTitle (TitleDisplay.init 128)))))

/-- A one-star starfield whose star sits at `x = 7, y = 0` with depth
`14.4`; the viewport is the full 128×64 screen. -/
def edgeStarSf : Starfield :=
  Starfield.set_viewport
    (Starfield.mk_init 128 64 1 32 (fun _ => (7, 0, 72/5))) 0 0 128 64

/-! ### Helper lemmas -/

theorem meta_payload_ne_empty (raw : String) :
    (if stripPayload raw ≠ "" ∧ stripPayload raw ≠ "--" then
        some (stripPayload raw) else none) ≠ some "" := by
  split
  · rename_i hcond
    intro hc
    exact hcond.1 (by injection hc)
  · simp

theorem metaWF_on_message (st : MQTTState) (topic : Topic) (raw : String)
    (h : MetaWF st) : MetaWF (on_message st topic raw) := by
  rcases h with ⟨ht, ha⟩
  cases topic <;>
    exact ⟨by first | exact ht | exact meta_payload_ne_empty raw | simp [on_message],
           by first | exact ha | exact meta_payload_ne_empty raw | simp [on_message]⟩

theorem metaWF_applyEvents (evs : List (Topic × String)) :
    ∀ st : MQTTState, MetaWF st → MetaWF (applyEvents st evs) := by
  induction evs with
  | nil => intro st h; exact h
  | cons ev rest ih =>
      intro st h
      exact ih (on_message st ev.1 ev.2) (metaWF_on_message st ev.1 ev.2 h)

theorem metaWF_reachable (st : MQTTState) (h : Reachable st) : MetaWF st := by
  rcases h with ⟨evs, rfl⟩
  exact metaWF_applyEvents evs MQTTState.init (by constructor <;> simp [MQTTState.init])

/-- A set title is absorbed by the duplicate guard. -/
theorem set_title_self (fw : String → ℕ) (now : ℚ) (st : TitleDisplay)
    (title : String) (h : st.text = some title) :
    TitleDisplay.set_title fw now st title = st := by
  simp [TitleDisplay.set_title, h]

/-- One advance step keeps a star's depth in `(0, max_depth]` as long
as `max_depth ≥ 1`. -/
theorem advanceStar_depth (max_depth : ℕ) (hmd : 1 ≤ max_depth)
    (rx ry : ℚ) (s : StarPt) (h : 0 < s.z ∧ s.z ≤ (max_depth : ℚ)) :
    0 < (advanceStar max_depth rx ry s).z ∧
      (advanceStar max_depth rx ry s).z ≤ (max_depth : ℚ) := by
  have hmd1 : (1 : ℚ) ≤ (max_depth : ℚ) := by exact_mod_cast hmd
  simp only [advanceStar]
  split
  · constructor
    · linarith
    · simp
  · rename_i hz
    rw [not_le, STAR_Z_STEP] at hz
    have h2 := h.2
    rw [STAR_Z_STEP]
    constructor
    · linarith
    · linarith

/-- Every star of an advanced list is the advance of some star of the
original list. -/
theorem advanceStars_mem (max_depth : ℕ) (rnd : ℕ → ℚ × ℚ) :
    ∀ (i : ℕ) (stars : List StarPt) (s : StarPt),
      s ∈ advanceStars max_depth rnd i stars →
      ∃ j s0, s0 ∈ stars ∧ s = advanceStar max_depth (rnd j).1 (rnd j).2 s0 := by
  intro i stars
  induction stars generalizing i with
  | nil => intro s hs; simp [advanceStars] at hs
  | cons hd tl ih =>
      intro s hs
      simp only [advanceStars, List.mem_cons] at hs
      rcases hs with hs | hs
      · exact ⟨i, hd, List.mem_cons_self hd tl, hs⟩
      · rcases ih (i + 1) s hs with ⟨j, s0, hm, he⟩
        exact ⟨j, s0, List.mem_cons_of_mem hd hm, he⟩

/-- Depth invariant carried by a full `update_and_draw` tick. -/
theorem update_and_draw_depth (sf : Starfield) (rnd : ℕ → ℚ × ℚ)
    (hmd : 1 ≤ sf.max_depth)
    (h : ∀ s ∈ sf.stars, 0 < s.z ∧ s.z ≤ (sf.max_depth : ℚ)) :
    ∀ s ∈ (update_and_draw sf rnd).1.stars,
      0 < s.z ∧ s.z ≤ (sf.max_depth : ℚ) := by
  intro s hs
  simp only [update_and_draw] at hs
  rcases advanceStars_mem sf.max_depth rnd 0 sf.stars s hs with ⟨j, s0, hm, rfl⟩
  exact advanceStar_depth sf.max_depth hmd _ _ s0 (h s0 hm)

/-- `update_and_draw` leaves the geometric configuration unchanged. -/
theorem update_and_draw_max_depth (sf : Starfield) (rnd : ℕ → ℚ × ℚ) :
    (update_and_draw sf rnd).1.max_depth = sf.max_depth := rfl

/-! ### Claim theorems -/

/-- C2: in every reachable store state, `get_display_title` is `none`
exactly when the stored title is `none`; an artist event never touches
the title field (so artist-set events while the title is absent keep
the derived display title absent); and when a title is present the
derived value is `"artist - title"` when an artist is present, else the
bare title. -/
theorem display_title_none_iff_title_none (st : MQTTState) (h : Reachable st) :
    (get_display_title st = none ↔ st.title = none) ∧
    (∀ raw, (on_message st Topic.artist raw).title = st.title) ∧
    (∀ t, st.title = some t → st.artist = none → get_display_title st = some t) ∧
    (∀ t a, st.title = some t → st.artist = some a →
      get_display_title st = some (a ++ " - " ++ t)) := by
  obtain ⟨ht, ha⟩ := metaWF_reachable st h
  refine ⟨?_, ?_, ?_, ?_⟩
  · cases hst : st.title with
    | none => simp [get_display_title, hst]
    | some t =>
        have htne : t ≠ "" := fun he => ht (by rw [hst, he])
        cases hsa : st.artist with
        | none => simp [get_display_title, hst, hsa, htne]
        | some a =>
            simp only [get_display_title, hst, hsa, if_neg htne]
            split <;> simp
  · intro raw; simp [on_message]
  · intro t hst hsa
    have htne : t ≠ "" := fun he => ht (by rw [hst, he])
    simp [get_display_title, hst, hsa, htne]
  · intro t a hst hsa
    have htne : t ≠ "" := fun he => ht (by rw [hst, he])
    have hane : a ≠ "" := fun he => ha (by rw [hsa, he])
    simp [get_display_title, hst, hsa, htne, hane]

/-- Witness for C2 at the reachable state produced by a lone artist-set
event: the title is still absent, so the display title is absent. -/
theorem display_title_none_iff_title_none_witness :
    get_display_title
        { title := none, artist := some "Band", is_active := false } = none ↔
      MQTTState.title
          { title := none, artist := some "Band", is_active := false } = none :=
  (display_title_none_iff_title_none
      { title := none, artist := some "Band", is_active := false }
      ⟨[(Topic.artist, "Band")], by decide⟩).1

/-- C8: a session-end event (`active_end`) clears both the title and
the artist; a track-end event (`play_end`) clears both as well but
leaves the session flag — and, with it, every other field — exactly as
it was. -/
theorem session_end_track_end_clear (st : MQTTState) (raw : String) :
    ((on_message st Topic.active_end raw).title = none ∧
     (on_message st Topic.active_end raw).artist = none) ∧
    ((on_message st Topic.play_end raw).title = none ∧
     (on_message st Topic.play_end raw).artist = none ∧
     (on_message st Topic.play_end raw).is_active = st.is_active) := by
  simp [on_message]

/-- C10: a title-set or artist-set event whose stripped payload is
empty — or the sentinel `"--"` — stores `none`; consequently on every
reachable store state `get_display_title` never returns the empty
string. -/
theorem empty_payload_stored_absent :
    (∀ (st : MQTTState) (raw : String),
       stripPayload raw = "" ∨ stripPayload raw = "--" →
       (on_message st Topic.title raw).title = none ∧
       (on_message st Topic.artist raw).artist = none) ∧
    (∀ st : MQTTState, Reachable st →
       ∀ s, get_display_title st = some s → s ≠ "") := by
  constructor
  · intro st raw hraw
    rcases hraw with hraw | hraw <;> constructor <;> simp [on_message, hraw]
  · intro st h s hs
    obtain ⟨ht, ha⟩ := metaWF_reachable st h
    cases hst : st.title with
    | none => simp [get_display_title, hst] at hs
    | some t =>
        have htne : t ≠ "" := fun he => ht (by rw [hst, he])
        cases hsa : st.artist with
        | none =>
            simp [get_display_title, hst, hsa, htne] at hs
            exact hs ▸ htne
        | some a =>
            by_cases hane : a = ""
            · simp [get_display_title, hst, hsa, htne, hane] at hs
              exact hs ▸ htne
            · simp [get_display_title, hst, hsa, htne, hane] at hs
              intro he
              have := congrArg String.length he
              rw [← hs] at this
              simp [String.length_append] at this
              exact absurd this.1.2 (by decide)

/-- Witness for C10: the all-whitespace payload `"  "` stores an absent
title. -/
theorem empty_payload_stored_absent_witness :
    (on_message MQTTState.init Topic.title "  ").title = none :=
  (empty_payload_stored_absent.1 MQTTState.init "  " (Or.inl (by decide))).1

/-- C7: pushing a title equal to the stored `source_text` is a complete
no-op: the whole state — offset, wait phase and timer, mode, rendered
text and measured width — is returned unchanged. -/
theorem set_title_duplicate_noop (fw : String → ℕ) (now : ℚ)
    (st : TitleDisplay) (title : String) (h : st.text = some title) :
    TitleDisplay.set_title fw now st title = st :=
  set_title_self fw now st title h

/-- Witness for C7: re-pushing `longTitle` onto a mid-scroll display
already holding it changes nothing. -/
theorem set_title_duplicate_noop_witness :
    TitleDisplay.set_title fwMono8 9
        { width := 128, text := some longTitle,
          display_text := longTitle ++ "   ", is_scrolling := true,
          scroll_offset := 2, text_width := 184, scroll_wait_start := 0,
          waiting_to_scroll := false } longTitle =
      { width := 128, text := some longTitle,
        display_text := longTitle ++ "   ", is_scrolling := true,
        scroll_offset := 2, text_width := 184, scroll_wait_start := 0,
        waiting_to_scroll := false } :=
  set_title_duplicate_noop fwMono8 9 _ longTitle rfl

/-- C5: `update` acts as a two-state machine.  In `Centered` mode
(`is_scrolling = false`) it is the identity.  In scrolling mode, while
dwelling (`waiting_to_scroll = true`) it only drops the wait flag once
`SCROLL_DELAY` has elapsed — the offset is untouched that tick — and
otherwise changes nothing; while active it adds exactly `SCROLL_SPEED`
to the offset, except that on the tick where the new offset would reach
the rendered text width it instead wraps to offset 0, re-enters the
dwell phase and restamps the dwell timer with `now`. -/
theorem update_two_state_machine (now : ℚ) (st : TitleDisplay) :
    (st.is_scrolling = false → TitleDisplay.update now st = st) ∧
    (st.is_scrolling = true → st.waiting_to_scroll = true →
      (now - st.scroll_wait_start ≥ SCROLL_DELAY →
        TitleDisplay.update now st = { st with waiting_to_scroll := false }) ∧
      (¬ now - st.scroll_wait_start ≥ SCROLL_DELAY →
        TitleDisplay.update now st = st)) ∧
    (st.is_scrolling = true → st.waiting_to_scroll = false →
      (st.scroll_offset + SCROLL_SPEED ≥ (st.text_width : ℚ) →
        TitleDisplay.update now st =
          { st with scroll_offset := 0, waiting_to_scroll := true,
                    scroll_wait_start := now }) ∧
      (¬ st.scroll_offset + SCROLL_SPEED ≥ (st.text_width : ℚ) →
        TitleDisplay.update now st =
          { st with scroll_offset := st.scroll_offset + SCROLL_SPEED })) := by
  refine ⟨?_, ?_, ?_⟩
  · intro h; simp [TitleDisplay.update, h]
  · intro h hw
    constructor <;> intro hd <;> simp [TitleDisplay.update, h, hw, hd]
  · intro h hw
    constructor <;> intro hd <;> simp [TitleDisplay.update, h, hw, hd]

/-- Witness for C5: an active scrolling state at offset 2 with width
184 advances to offset 4 on the next tick. -/
theorem update_two_state_machine_witness :
    TitleDisplay.update 6
        { width := 128, text := some longTitle,
          display_text := longTitle ++ "   ", is_scrolling := true,
          scroll_offset := 2, text_width := 184, scroll_wait_start := 0,
          waiting_to_scroll := false } =
      { width := 128, text := some longTitle,
        display_text := longTitle ++ "   ", is_scrolling := true,
        scroll_offset := 2 + SCROLL_SPEED, text_width := 184,
        scroll_wait_start := 0, waiting_to_scroll := false } :=
  ((update_two_state_machine 6 _).2.2 rfl rfl).2 (by norm_num [SCROLL_SPEED])

/-- C6: on a genuinely new text, `set_title` picks the presentation by
a three-way case split on measured pixel widths: the dash-flanked
variant centered when it fits, else the plain text centered when it
fits, else the text with the fixed three-space trailing gap in
scrolling mode, its stored width measured on the padded string. -/
theorem set_title_three_way_split (fw : String → ℕ) (now : ℚ)
    (st : TitleDisplay) (title : String) (h : st.text ≠ some title) :
    (fw ("- " ++ title ++ " -") ≤ st.width →
      TitleDisplay.set_title fw now st title =
        { st with text := some title, scroll_offset := 0,
                  waiting_to_scroll := true, scroll_wait_start := now,
                  display_text := "- " ++ title ++ " -",
                  text_width := fw ("- " ++ title ++ " -"),
                  is_scrolling := false }) ∧
    (¬ fw ("- " ++ title ++ " -") ≤ st.width → fw title ≤ st.width →
      TitleDisplay.set_title fw now st title =
        { st with text := some title, scroll_offset := 0,
                  waiting_to_scroll := true, scroll_wait_start := now,
                  display_text := title, text_width := fw title,
                  is_scrolling := false }) ∧
    (¬ fw ("- " ++ title ++ " -") ≤ st.width → ¬ fw title ≤ st.width →
      TitleDisplay.set_title fw now st title =
        { st with text := some title, scroll_offset := 0,
                  waiting_to_scroll := true, scroll_wait_start := now,
                  display_text := title ++ "   ",
                  text_width := fw (title ++ "   "),
                  is_scrolling := true }) := by
  refine ⟨?_, ?_, ?_⟩
  · intro hd; simp [TitleDisplay.set_title, h, hd]
  · intro hd hb; simp [TitleDisplay.set_title, h, hd, hb]
  · intro hd hb; simp [TitleDisplay.set_title, h, hd, hb]

/-- Witness for C6: under the 8px-per-character metrics, the 9-character
text `"Yesterday"` has a flanked width of 104 ≤ 128, so it is rendered
centered as `"- Yesterday -"`. -/
theorem set_title_three_way_split_witness :
    TitleDisplay.set_title fwMono8 1 (TitleDisplay.init 128) "Yesterday" =
      { width := 128, text := some "Yesterday",
        display_text := "- " ++ "Yesterday" ++ " -",
        is_scrolling := false, scroll_offset := 0,
        text_width := fwMono8 ("- " ++ "Yesterday" ++ " -"),
        scroll_wait_start := 1, waiting_to_scroll := true } :=
  (set_title_three_way_split fwMono8 1 (TitleDisplay.init 128) "Yesterday"
      (by decide)).1 (by decide)

/-- Pixel bounds for the pixels one star contributes: inside the
viewport horizontally up to and including the right edge (the extra
size pixel can land exactly on `vp_x + vp_w`), strictly inside
vertically; a star projected outside the viewport contributes
nothing. -/
theorem drawStar_bounds (sf : Starfield) (s : StarPt) :
    (∀ p ∈ drawStar sf s,
       sf.vp_x ≤ p.1 ∧ p.1 ≤ sf.vp_x + sf.vp_w ∧
       sf.vp_y ≤ p.2 ∧ p.2 < sf.vp_y + sf.vp_h) ∧
    (¬ (sf.vp_x ≤ (project sf s).1 ∧ (project sf s).1 < sf.vp_x + sf.vp_w ∧
        sf.vp_y ≤ (project sf s).2 ∧ (project sf s).2 < sf.vp_y + sf.vp_h) →
      drawStar sf s = []) := by
  constructor
  · intro p hp
    simp only [drawStar] at hp
    split at hp
    · rename_i hin
      obtain ⟨h1, h2, h3, h4⟩ := hin
      rcases List.mem_cons.mp hp with rfl | hp2
      · exact ⟨h1, le_of_lt h2, h3, h4⟩
      · split at hp2
        · rcases List.mem_singleton.mp hp2 with rfl
          exact ⟨by omega, by omega, h3, h4⟩
        · simp at hp2
    · simp at hp
  · intro hout
    simp only [drawStar]
    rw [if_neg hout]

/-- C3 (amended): during one `update_and_draw` tick every pixel handed
to the draw callback lies within
`[vp_x, vp_x + vp_w] × [vp_y, vp_y + vp_h)` — the extra adjacent size
pixel of a near star may land exactly on the column `vp_x + vp_w`, one
past the half-open horizontal range — and a star whose projected point
falls outside the viewport rectangle causes no pixel to be drawn at
all. -/
theorem starfield_clip_within_closed_bounds (sf : Starfield)
    (rnd : ℕ → ℚ × ℚ) :
    (∀ p ∈ (update_and_draw sf rnd).2,
       sf.vp_x ≤ p.1 ∧ p.1 ≤ sf.vp_x + sf.vp_w ∧
       sf.vp_y ≤ p.2 ∧ p.2 < sf.vp_y + sf.vp_h) ∧
    (∀ s : StarPt,
       ¬ (sf.vp_x ≤ (project sf s).1 ∧ (project sf s).1 < sf.vp_x + sf.vp_w ∧
          sf.vp_y ≤ (project sf s).2 ∧ (project sf s).2 < sf.vp_y + sf.vp_h) →
       drawStar sf s = []) := by
  constructor
  · intro p hp
    simp only [update_and_draw, List.mem_flatten, List.mem_map] at hp
    rcases hp with ⟨l, ⟨s, _, rfl⟩, hpl⟩
    exact (drawStar_bounds sf s).1 p hpl
  · intro s hout
    exact (drawStar_bounds sf s).2 hout

/-- Counterexample to C3 as stated: in `edgeStarSf` (full-screen
viewport, one star), the tick advances the star to depth `14.2`, whose
projection `(127, 32)` is inside the viewport and near enough for the
size pixel, so the step also draws `(128, 32)` — a pixel outside the
half-open range `[vp_x, vp_x + vp_w)`. -/
theorem starfield_clip_cex :
    ((128 : ℤ), (32 : ℤ)) ∈ (update_and_draw edgeStarSf (fun _ => (0, 0))).2 ∧
    ¬ ((128 : ℤ) < edgeStarSf.vp_x + edgeStarSf.vp_w) := by
  norm_num [edgeStarSf, update_and_draw, advanceStars, advanceStar, drawStar,
    project, truncQ, Starfield.set_viewport, Starfield.mk_init, init_stars,
    STAR_Z_STEP, Int.floor_eq_iff]

/-- Witness for C3 (amended) at the pixel `(128, 32)` drawn in
`edgeStarSf`: it satisfies the closed horizontal bound. -/
theorem starfield_clip_within_closed_bounds_witness :
    edgeStarSf.vp_x ≤ (128 : ℤ) ∧
    (128 : ℤ) ≤ edgeStarSf.vp_x + edgeStarSf.vp_w ∧
    edgeStarSf.vp_y ≤ (32 : ℤ) ∧ (32 : ℤ) < edgeStarSf.vp_y + edgeStarSf.vp_h :=
  (starfield_clip_within_closed_bounds edgeStarSf (fun _ => (0, 0))).1
    ((128 : ℤ), (32 : ℤ))
    (by norm_num [edgeStarSf, update_and_draw, advanceStars, advanceStar,
      drawStar, project, truncQ, Starfield.set_viewport, Starfield.mk_init,
      init_stars, STAR_Z_STEP, Int.floor_eq_iff])

/-- The depth invariant and the geometric configuration are carried
through any number of render ticks. -/
theorem runTicks_depth (rnd : ℕ → ℕ → ℚ × ℚ) (maxd : ℕ) (hmd : 1 ≤ maxd) :
    ∀ (k : ℕ) (sf : Starfield), sf.max_depth = maxd →
      (∀ s ∈ sf.stars, 0 < s.z ∧ s.z ≤ (maxd : ℚ)) →
      (runTicks rnd k sf).max_depth = maxd ∧
        ∀ s ∈ (runTicks rnd k sf).stars, 0 < s.z ∧ s.z ≤ (maxd : ℚ) := by
  intro k
  induction k with
  | zero => intro sf h1 h2; exact ⟨h1, h2⟩
  | succ k ih =>
      intro sf h1 h2
      obtain ⟨ih1, ih2⟩ := ih sf h1 h2
      refine ⟨ih1, ?_⟩
      have := update_and_draw_depth (runTicks rnd k sf) (rnd k)
        (ih1 ▸ hmd) (by rw [ih1]; exact ih2)
      rw [ih1] at this
      exact this

/-- C4: starting from `Starfield.__init__` (star depths drawn from
`randrange(1, max_depth)`, i.e. in `[1, max_depth - 1]`), after any
number of `update_and_draw` ticks every star's depth satisfies
`0 < depth ≤ max_depth`; and within a tick, a star whose decremented
depth reaches `≤ 0` is respawned at the oracle coordinates with depth
exactly `max_depth` before projection — the pixels it contributes are
computed from the respawned star. -/
theorem starfield_depth_invariant (w h n maxd : ℕ)
    (initRnd : ℕ → ℚ × ℚ × ℚ) (rnd : ℕ → ℕ → ℚ × ℚ) (k : ℕ)
    (hmd : 1 ≤ maxd)
    (hz : ∀ i, 1 ≤ (initRnd i).2.2 ∧ (initRnd i).2.2 ≤ (maxd : ℚ) - 1) :
    (∀ s ∈ (runTicks rnd k (Starfield.mk_init w h n maxd initRnd)).stars,
       0 < s.z ∧ s.z ≤ (maxd : ℚ)) ∧
    (∀ (sf : Starfield) (rx ry : ℚ) (s : StarPt), sf.max_depth = maxd →
       s.z - STAR_Z_STEP ≤ 0 →
       starStep sf rx ry s =
         ({ x := rx, y := ry, z := (maxd : ℚ) },
           drawStar sf { x := rx, y := ry, z := (maxd : ℚ) })) := by
  constructor
  · refine (runTicks_depth rnd maxd hmd k
      (Starfield.mk_init w h n maxd initRnd) rfl ?_).2
    intro s hs
    simp only [Starfield.mk_init, init_stars, List.mem_map, List.mem_range] at hs
    rcases hs with ⟨i, _, rfl⟩
    obtain ⟨hz1, hz2⟩ := hz i
    constructor
    · exact lt_of_lt_of_le (by norm_num) hz1
    · linarith
  · intro sf rx ry s hsf hzz
    simp only [starStep, advanceStar, if_pos hzz, hsf]

/-- Witness for C4: one star seeded at depth 1; after one tick its
depth is `4/5`, which the invariant brackets inside `(0, 32]`. -/
theorem starfield_depth_invariant_witness :
    0 < (StarPt.mk 0 0 (4/5)).z ∧ (StarPt.mk 0 0 (4/5)).z ≤ ((32 : ℕ) : ℚ) := by
  have hmem : StarPt.mk 0 0 (4/5) ∈
      (runTicks (fun _ _ => (0, 0)) 1
        (Starfield.mk_init 128 64 1 32 (fun _ => (0, 0, 1)))).stars := by
    norm_num [runTicks, update_and_draw, advanceStars, advanceStar,
      Starfield.mk_init, init_stars, List.range_succ, STAR_Z_STEP]
  exact (starfield_depth_invariant 128 64 1 32 (fun _ => (0, 0, 1))
    (fun _ _ => (0, 0)) 1 (by norm_num) (fun i => by norm_num)).1 _ hmem

/-- Counterexample to C1 as stated: across the round trip modelled by
`roundTripTd` (title `longTitle` displayed and mid-scroll at offset 2,
session-end delivered, identical title re-delivered), the tick after
re-delivery does not produce a fresh dwell at offset 0: the view is in
the active scroll phase at offset 4, because the render loop never
cleared the view's stored `source_text` while the store was empty, so
the re-set hit the duplicate guard.  Indeed the stored text is still
`longTitle` after the round trip. -/
theorem roundtrip_fresh_dwell_cex :
    roundTripTd.scroll_offset = 4 ∧ roundTripTd.waiting_to_scroll = false ∧
    roundTripTd.text = some longTitle := by
  have h1 : mqttWithTitle =
      { title := some longTitle, artist := none, is_active := false } := by decide
  have h2 : mqttCleared =
      { title := none, artist := none, is_active := false } := by decide
  have h3 : mqttRetitled =
      { title := some longTitle, artist := none, is_active := false } := by decide
  have e1 : loopTick fwMono8 0 mqttWithTitle (TitleDisplay.init 128) =
      { width := 128, text := some longTitle,
        display_text := longTitle ++ "   ", is_scrolling := true,
        scroll_offset := 0, text_width := 184, scroll_wait_start := 0,
        waiting_to_scroll := true } := by
    norm_num +decide [h1, loopTick, get_display_title, longTitle, fwMono8,
      TitleDisplay.init, TitleDisplay.set_title, TitleDisplay.update,
      SCROLL_DELAY, SCROLL_SPEED]
  have e2 : loopTick fwMono8 3 mqttWithTitle
      { width := 128, text := some longTitle,
        display_text := longTitle ++ "   ", is_scrolling := true,
        scroll_offset := 0, text_width := 184, scroll_wait_start := 0,
        waiting_to_scroll := true } =
      { width := 128, text := some longTitle,
        display_text := longTitle ++ "   ", is_scrolling := true,
        scroll_offset := 0, text_width := 184, scroll_wait_start := 0,
        waiting_to_scroll := false } := by
    norm_num +decide [h1, loopTick, get_display_title, longTitle, fwMono8,
      TitleDisplay.set_title, TitleDisplay.update, SCROLL_DELAY, SCROLL_SPEED]
  have e3 : loopTick fwMono8 4 mqttWithTitle
      { width := 128, text := some longTitle,
        display_text := longTitle ++ "   ", is_scrolling := true,
        scroll_offset := 0, text_width := 184, scroll_wait_start := 0,
        waiting_to_scroll := false } =
      { width := 128, text := some longTitle,
        display_text := longTitle ++ "   ", is_scrolling := true,
        scroll_offset := 2, text_width := 184, scroll_wait_start := 0,
        waiting_to_scroll := false } := by
    norm_num +decide [h1, loopTick, get_display_title, longTitle, fwMono8,
      TitleDisplay.set_title, TitleDisplay.update, SCROLL_DELAY, SCROLL_SPEED]
  have e4 : loopTick fwMono8 5 mqttCleared
      { width := 128, text := some longTitle,
        display_text := longTitle ++ "   ", is_scrolling := true,
        scroll_offset := 2, text_width := 184, scroll_wait_start := 0,
        waiting_to_scroll := false } =
      { width := 128, text := some longTitle,
        display_text := longTitle ++ "   ", is_scrolling := true,
        scroll_offset := 2, text_width := 184, scroll_wait_start := 0,
        waiting_to_scroll := false } := by
    norm_num +decide [h2, loopTick, get_display_title]
  have e5 : loopTick fwMono8 6 mqttRetitled
      { width := 128, text := some longTitle,
        display_text := longTitle ++ "   ", is_scrolling := true,
        scroll_offset := 2, text_width := 184, scroll_wait_start := 0,
        waiting_to_scroll := false } =
      { width := 128, text := some longTitle,
        display_text := longTitle ++ "   ", is_scrolling := true,
        scroll_offset := 4, text_width := 184, scroll_wait_start := 0,
        waiting_to_scroll := false } := by
    norm_num +decide [h3, loopTick, get_display_title, longTitle, fwMono8,
      TitleDisplay.set_title, TitleDisplay.update, SCROLL_DELAY, SCROLL_SPEED]
  rw [roundTripTd, e1, e2, e3, e4, e5]
  exact ⟨rfl, rfl, rfl⟩

/-- C1 (amended): while the store's display title is `none`, a render
tick leaves the title display completely untouched — in particular its
`source_text` keeps the old title — and when the identical title is
then re-delivered, the re-set is absorbed by the duplicate guard of
`set_title`, so the tick merely advances the animation from the state
it had when the session ended instead of starting a fresh dwell at
offset 0. -/
theorem roundtrip_resumes_prior_state (fw : String → ℕ) (now : ℚ)
    (m mC : MQTTState) (td : TitleDisplay) (t : String)
    (hC : get_display_title mC = none) (hm : get_display_title m = some t)
    (ht : td.text = some t) (hne : t ≠ "") :
    loopTick fw now mC td = td ∧
    loopTick fw now m td = TitleDisplay.update now td := by
  constructor
  · simp [loopTick, hC]
  · simp [loopTick, hm, hne, set_title_self fw now td t ht]

/-- Witness for C1 (amended) on the concrete round trip: the tick on
the cleared store is the identity, and the tick after the identical
title is re-delivered is a bare `update`. -/
theorem roundtrip_resumes_prior_state_witness :
    loopTick fwMono8 6 mqttCleared
        { width := 128, text := some longTitle,
          display_text := longTitle ++ "   ", is_scrolling := true,
          scroll_offset := 2, text_width := 184, scroll_wait_start := 0,
          waiting_to_scroll := false } =
      { width := 128, text := some longTitle,
        display_text := longTitle ++ "   ", is_scrolling := true,
        scroll_offset := 2, text_width := 184, scroll_wait_start := 0,
        waiting_to_scroll := false } ∧
    loopTick fwMono8 6 mqttRetitled
        { width := 128, text := some longTitle,
          display_text := longTitle ++ "   ", is_scrolling := true,
          scroll_offset := 2, text_width := 184, scroll_wait_start := 0,
          waiting_to_scroll := false } =
      TitleDisplay.update 6
        { width := 128, text := some longTitle,
          display_text := longTitle ++ "   ", is_scrolling := true,
          scroll_offset := 2, text_width := 184, scroll_wait_start := 0,
          waiting_to_scroll := false } :=
  roundtrip_resumes_prior_state fwMono8 6 mqttRetitled mqttCleared _ longTitle
    (by decide) (by decide) rfl (by decide)
